import Mathlib

/-!
Verification of the device-discovery, format-negotiation and capture-decode
pipeline of `src/main.rs` (camera-capture-v4l2-rs).

The Rust source is shallowly embedded: device listings become lists of
`Except String _` values (mirroring the iterators of `Result` values the
`linux_video` crate yields), and each search stage of `get_camera` becomes an
executable Lean function mirroring the corresponding iterator chain.
-/

namespace CameraCapture

/-! ## Constants of `main.rs` -/

/-- `const CARD: &str = "USB 2.0 Camera: HD USB Camera"` (main.rs line 15). -/
def CARD : String := "USB 2.0 Camera: HD USB Camera"

/-- `CapabilityFlag::VideoCapture` — V4L2 `V4L2_CAP_VIDEO_CAPTURE` bit. -/
def capVideoCapture : Nat := 0x00000001

/-- `CapabilityFlag::ExtPixFormat` — V4L2 `V4L2_CAP_EXT_PIX_FORMAT` bit. -/
def capExtPixFormat : Nat := 0x00200000

/-- `CapabilityFlag::Streaming` — V4L2 `V4L2_CAP_STREAMING` bit. -/
def capStreaming : Nat := 0x04000000

/-- `let caps_req = CAPS_REQ_1 | CAPS_REQ_2 | CAPS_REQ_3` (main.rs line 23). -/
def capsReq : Nat := capVideoCapture ||| capExtPixFormat ||| capStreaming

/-! ## Capability matcher (main.rs lines 20–39) -/

/-- What `dev.capabilities()` reports for one candidate device: the identity
string (`caps.card()`) and the device capability bitmask
(`caps.device_capabilities()`). -/
structure Caps where
  card : String
  deviceCapabilities : Nat
deriving Repr, DecidableEq

/-- The accept condition of the matcher loop:
`caps.card() == CARD && caps.device_capabilities() == caps_req`
(main.rs line 29). -/
def deviceMatches (c : Caps) : Bool :=
  (c.card == CARD) && (c.deviceCapabilities == capsReq)

/-- The matcher loop of `get_camera` (main.rs lines 24–37).  Each element of
the input list is the combined outcome of `devs.fetch_next()?`,
`Device::open(&path)?` and `dev.capabilities()?` for one enumerated
candidate: `.error e` when any of those three fallible steps fails (the `?`
operator aborts the whole loop with that error), `.ok c` when the candidate
was opened and its capabilities read.  The loop breaks with the first
matching device, with `none` when the sequence is exhausted, or propagates
the first error. -/
def scanDevices : List (Except String Caps) → Except String (Option Caps)
  | [] => .ok none
  | .error e :: _ => .error e
  | .ok c :: rest => if deviceMatches c then .ok (some c) else scanDevices rest

/-- The matcher phase of `get_camera` including
`dev.ok_or_else(|| anyhow::Error::msg("cannot find camera"))?`
(main.rs line 39). -/
def getMatchedCamera (l : List (Except String Caps)) : Except String Caps :=
  match scanDevices l with
  | .error e => .error e
  | .ok none => .error "cannot find camera"
  | .ok (some c) => .ok c

/-! ## Pixel-format search (main.rs lines 41–55) -/

/-- A four-character pixel-format code (`FourCc`); the source only ever
compares against `FourCc::Mjpeg`, so other codes are kept abstract. -/
inductive FourCc where
  | mjpeg
  | other (code : Nat)
deriving Repr, DecidableEq

/-- One entry of `device.formats(BufferType::VideoCapture)`: the source only
reads its `pixel_format()`. -/
structure FmtDesc where
  pixelFormat : FourCc
deriving Repr, DecidableEq

/-- The closure passed to `find_map` in the pixel-format search
(main.rs lines 44–54):
`format.map(|f| if f.pixel_format() == FourCc::Mjpeg { Some(f) } else { None }).unwrap_or(None)` —
an `Err` entry yields `None` (the entry is skipped), an `Ok` entry is kept
exactly when its encoding is motion-JPEG. -/
def mjpegHit (r : Except String FmtDesc) : Option FmtDesc :=
  match r with
  | .ok f => if f.pixelFormat == FourCc.mjpeg then some f else none
  | .error _ => none

/-- The pixel-format search stage (main.rs lines 41–55): `find_map` over the
format listing, then
`.ok_or_else(|| anyhow::Error::msg("MJPG format not supported"))`. -/
def selectFormat (formats : List (Except String FmtDesc)) : Except String FmtDesc :=
  match formats.findSome? mjpegHit with
  | some f => .ok f
  | none => .error "MJPG format not supported"

/-! ## Size search (main.rs lines 56–69) -/

/-- One entry of `device.sizes(fourcc)`: `size.sizes()` iterates the discrete
(width, height) pairs the entry holds; an entry that is not a discrete-size
list contributes no pairs. -/
structure FrmSize where
  discreteSizes : List (Nat × Nat)
deriving Repr, DecidableEq

/-- `size.sizes().any(|s| s.width() == 320 && s.height() == 240)`
(main.rs line 62). -/
def sizeHasTarget (s : FrmSize) : Bool :=
  s.discreteSizes.any (fun p => p.1 == 320 && p.2 == 240)

/-- `filter_map(|f| if let Ok(f) = f { Some(f) } else { None })` — the
Ok-keeping filter used by both the size search (main.rs line 60) and the
interval search (main.rs line 74). -/
def okOnly {α : Type} : Except String α → Option α
  | .ok a => some a
  | .error _ => none

/-- The size search stage (main.rs lines 56–69): keep the `Ok` entries, find
the first whose discrete sizes contain (320, 240), pair it with the selected
format, else
`.ok_or_else(|| anyhow::Error::msg("320x240 resolution not supported"))`. -/
def selectSize (fmt : FmtDesc) (szs : List (Except String FrmSize)) :
    Except String (FmtDesc × FrmSize) :=
  match (szs.filterMap okOnly).find? sizeHasTarget with
  | some s => .ok (fmt, s)
  | none => .error "320x240 resolution not supported"

/-! ## Interval search (main.rs lines 70–86) -/

/-- One entry of `device.intervals(fourcc, 320, 240)`: either a discrete
numerator/denominator fraction (`FrmIvalDiscrete`), or an entry of some other
kind (stepwise or continuous) that `try_ref::<FrmIvalDiscrete>` refuses. -/
inductive FrmIvalEntry where
  | discrete (numerator denominator : Nat)
  | nonDiscrete (tag : Nat)
deriving Repr, DecidableEq

/-- `interval.try_ref::<FrmIvalDiscrete>()` (main.rs line 76): `some` exactly
on discrete entries. -/
def tryDiscrete : FrmIvalEntry → Option (Nat × Nat)
  | .discrete n d => some (n, d)
  | .nonDiscrete _ => none

/-- The closure passed to `find_map` in the interval search
(main.rs lines 75–83): reinterpret the entry as a discrete fraction, keep the
entry exactly when `frac.numerator() == 513 && frac.denominator() == 61612`. -/
def intervalHit (i : FrmIvalEntry) : Option FrmIvalEntry :=
  (tryDiscrete i).bind (fun frac =>
    if frac.1 == 513 && frac.2 == 61612 then some i else none)

/-- The interval search stage (main.rs lines 70–86): keep the `Ok` entries,
`find_map` with `intervalHit`, pair with format and size, else
`.ok_or_else(|| anyhow::Error::msg("interval 513/61612 not supported"))`. -/
def selectInterval (fmt : FmtDesc) (sz : FrmSize)
    (ivals : List (Except String FrmIvalEntry)) :
    Except String (FmtDesc × FrmSize × FrmIvalEntry) :=
  match (ivals.filterMap okOnly).findSome? intervalHit with
  | some i => .ok (fmt, sz, i)
  | none => .error "interval 513/61612 not supported"

/-! ## Commit step (main.rs lines 88–97) -/

/-- The mutable `PixFormat` view of the capture format descriptor: the three
fields the source writes (`set_pixel_format`, `set_width`, `set_height`). -/
structure PixFormat where
  pixelFormat : FourCc
  width : Nat
  height : Nat
deriving Repr, DecidableEq

/-- The capture format descriptor returned by
`device.format(BufferType::VideoCapture)`: either reinterpretable as a
mutable `PixFormat` (`try_mut` succeeds), or of some other shape (`try_mut`
returns `None`). -/
inductive FormatDesc where
  | pix (p : PixFormat)
  | otherDesc (tag : Nat)
deriving Repr, DecidableEq

/-- The commit step (main.rs lines 88–97).  `current` is the outcome of
`device.format(BufferType::VideoCapture)?`; `setFormat` is the device's
response to `device.set_format(&mut capture_format)?`.  When `try_mut`
succeeds, the descriptor is mutated in place to pixel format `selected`,
width 320 and height 240 and pushed; when `try_mut` fails the step fails
with "cannot set pixel format"; when the push fails its error propagates
through `?` unchanged.  Returns the descriptor as pushed on success. -/
def commitFormat (current : Except String FormatDesc)
    (setFormat : FormatDesc → Except String Unit)
    (selected : FourCc) : Except String FormatDesc :=
  match current with
  | .error e => .error e
  | .ok cf =>
    match cf with
    | .otherDesc _ => .error "cannot set pixel format"
    | .pix p =>
        let cf' := FormatDesc.pix
          { p with pixelFormat := selected, width := 320, height := 240 }
        match setFormat cf' with
        | .ok _ => .ok cf'
        | .error e => .error e

/-! ## Per-tick capture/decode pipeline (`MyApp::update`, main.rs lines 154–184)

One redraw tick runs the chain
`stream.next() → lock → JpegDecoder::new → DynamicImage::from_decoder →
to_rgba8 → ColorImage::from_rgba_unmultiplied([320,240], ..) → load_texture`.
A frame payload is embedded by what the external JPEG decoder does with it:
construction of the decoder fails, the full decode fails, or the decode
succeeds yielding an RGBA image of some width and height (whose raw buffer
has `w * h * 4` bytes). -/

/-- The behaviour of one captured buffer's payload under the JPEG decoder. -/
inductive FramePayload where
  /-- `JpegDecoder::new(buf)` fails with this underlying error message. -/
  | badHeader (err : String)
  /-- `DynamicImage::from_decoder(decoder)` fails with this message. -/
  | badStream (err : String)
  /-- The payload decodes to an RGBA image of these dimensions. -/
  | image (width height : Nat)
deriving Repr, DecidableEq

/-- The observable outcome of one redraw tick's pipeline run. -/
inductive TickOutcome where
  /-- The frame was decoded and handed to the display surface. -/
  | rendered
  /-- A pipeline error was printed (`println!("error displaying frame: ..")`)
  and swallowed by `.ok()`; `update` returned normally. -/
  | logged (msg : String)
  /-- `ColorImage::from_rgba_unmultiplied` hit its size assertion
  (`assert_eq!(size[0] * size[1] * 4, rgba.len())` in epaint): the tick does
  not complete; the panic unwinds out of `update`. -/
  | panicked
deriving Repr, DecidableEq

/-- One tick of `MyApp::update`'s pipeline (main.rs lines 154–180) over the
result of `stream.next()` and the driver buffer pool's available count.
Acquiring a filled buffer removes it from the pool for the duration of the
lock scope (`let locked = buf_ref.lock()`); the scope ends — and Rust drops
the guard, returning the buffer — on every exit path of the `and_then`
closure, including panic unwinding.  Returns the tick outcome and the pool's
available count after the tick. -/
def tickOnce (next : Except String FramePayload) (pool : Nat) :
    TickOutcome × Nat :=
  match next with
  | .error e => (.logged ("cannot get frame: " ++ e), pool)
  | .ok payload =>
      let held := pool - 1
      match payload with
      | .badHeader e => (.logged ("cannot get decoder: " ++ e), held + 1)
      | .badStream e => (.logged ("cannot get decoder: " ++ e), held + 1)
      | .image w h =>
          if 320 * 240 * 4 == w * h * 4 then (.rendered, held + 1)
          else (.panicked, held + 1)

/-- Successive ticks of the redraw loop over a stream of `next()` results.
A panic aborts the loop (the process dies); a logged error does not — the
next tick runs a fresh acquisition. -/
def runTicks (frames : List (Except String FramePayload)) (pool : Nat) :
    List TickOutcome × Nat :=
  match frames with
  | [] => ([], pool)
  | f :: rest =>
      match tickOnce f pool with
      | (.panicked, p) => ([.panicked], p)
      | (o, p) =>
          let (os, p') := runTicks rest p
          (o :: os, p')

/-! ## Helper lemmas -/

theorem findSome?_append_none {α β : Type} (f : α → Option β) (pre l : List α)
    (h : ∀ r ∈ pre, f r = none) :
    (pre ++ l).findSome? f = l.findSome? f := by
  induction pre with
  | nil => rfl
  | cons a t ih =>
      have ha : f a = none := h a (List.mem_cons_self a t)
      simp only [List.cons_append, List.findSome?_cons, ha]
      exact ih (fun r hr => h r (List.mem_cons_of_mem a hr))

theorem find?_append_false {α : Type} (p : α → Bool) (pre l : List α)
    (h : ∀ r ∈ pre, p r = false) :
    (pre ++ l).find? p = l.find? p := by
  induction pre with
  | nil => rfl
  | cons a t ih =>
      have ha : p a = false := h a (List.mem_cons_self a t)
      simp only [List.cons_append, List.find?_cons, ha]
      exact ih (fun r hr => h r (List.mem_cons_of_mem a hr))

theorem findSome?_eq_none_of_all {α β : Type} (f : α → Option β) (l : List α)
    (h : ∀ r ∈ l, f r = none) :
    l.findSome? f = none := by
  induction l with
  | nil => rfl
  | cons a t ih =>
      have ha : f a = none := h a (List.mem_cons_self a t)
      simp only [List.findSome?_cons, ha]
      exact ih (fun r hr => h r (List.mem_cons_of_mem a hr))

theorem find?_eq_none_of_all {α : Type} (p : α → Bool) (l : List α)
    (h : ∀ r ∈ l, p r = false) :
    l.find? p = none := by
  induction l with
  | nil => rfl
  | cons a t ih =>
      have ha : p a = false := h a (List.mem_cons_self a t)
      simp only [List.find?_cons, ha]
      exact ih (fun r hr => h r (List.mem_cons_of_mem a hr))

theorem scanDevices_ok_matches (l : List Caps) (c : Caps)
    (h : scanDevices (l.map Except.ok) = .ok (some c)) :
    deviceMatches c = true := by
  induction l with
  | nil => simp [scanDevices] at h
  | cons a t ih =>
      simp only [List.map_cons, scanDevices] at h
      by_cases ha : deviceMatches a = true
      · simp only [ha, if_true] at h
        cases h
        exact ha
      · simp only [ha, if_false] at h
        exact ih h

theorem scanDevices_finds_match (l : List Caps) (c : Caps)
    (hc : c ∈ l) (hm : deviceMatches c = true) :
    ∃ d, scanDevices (l.map Except.ok) = .ok (some d) ∧ deviceMatches d = true := by
  induction l with
  | nil => cases hc
  | cons a t ih =>
      by_cases ha : deviceMatches a = true
      · exact ⟨a, by simp [scanDevices, ha], ha⟩
      · have hct : c ∈ t := by
          cases hc with
          | head => exact absurd hm ha
          | tail _ h => exact h
        obtain ⟨d, hd, hdm⟩ := ih hct
        exact ⟨d, by simpa [scanDevices, ha] using hd, hdm⟩

/-! ## Claim theorems -/

/-- Claim C1: for every enumerated candidate device, the matcher selects it
if and only if its identity string equals the configured target `CARD` and
its capability flags equal exactly the configured required set
`{VideoCapture, ExtPixFormat, Streaming}`; a device whose flags are a strict
superset of the required set, or whose identity differs, is never selected,
and a candidate satisfying both conditions guarantees that a (first)
matching device is selected. -/
theorem matcher_selects_iff_exact (l : List Caps) (c : Caps) :
    (deviceMatches c = true ↔ c.card = CARD ∧ c.deviceCapabilities = capsReq)
    ∧ (scanDevices (l.map Except.ok) = .ok (some c) →
        c.card = CARD ∧ c.deviceCapabilities = capsReq)
    ∧ (∀ d : Caps,
        d.card ≠ CARD ∨
          (d.deviceCapabilities &&& capsReq = capsReq ∧ d.deviceCapabilities ≠ capsReq) →
        scanDevices (l.map Except.ok) ≠ .ok (some d))
    ∧ (c ∈ l → deviceMatches c = true →
        ∃ d, scanDevices (l.map Except.ok) = .ok (some d) ∧ deviceMatches d = true) := by
  have hiff : ∀ a : Caps,
      deviceMatches a = true ↔ a.card = CARD ∧ a.deviceCapabilities = capsReq := by
    intro a
    simp [deviceMatches]
  refine ⟨hiff c, ?_, ?_, scanDevices_finds_match l c⟩
  · intro h
    exact (hiff c).mp (scanDevices_ok_matches l c h)
  · intro d hd hsel
    have := (hiff d).mp (scanDevices_ok_matches l d hsel)
    cases hd with
    | inl h => exact h this.1
    | inr h => exact h.2 this.2

/-- Witness for C1 at concrete devices: a candidate whose capability flags
are a strict superset of the required set (the `ReadWrite` bit 0x01000000
added) is never selected; a candidate with the exact identity and the exact
flags is matched. -/
theorem matcher_selects_iff_exact_witness :
    scanDevices ([⟨"other cam", capsReq⟩,
        ⟨CARD, capsReq ||| 0x01000000⟩, ⟨CARD, capsReq⟩].map Except.ok)
      ≠ .ok (some ⟨CARD, capsReq ||| 0x01000000⟩)
    ∧ ∃ d, scanDevices ([⟨"other cam", capsReq⟩,
        ⟨CARD, capsReq ||| 0x01000000⟩, ⟨CARD, capsReq⟩].map Except.ok)
        = .ok (some d) ∧ deviceMatches d = true := by
  constructor
  · exact (matcher_selects_iff_exact
      [⟨"other cam", capsReq⟩, ⟨CARD, capsReq ||| 0x01000000⟩, ⟨CARD, capsReq⟩]
      ⟨CARD, capsReq⟩).2.2.1 ⟨CARD, capsReq ||| 0x01000000⟩ (Or.inr (by decide))
  · exact (matcher_selects_iff_exact
      [⟨"other cam", capsReq⟩, ⟨CARD, capsReq ||| 0x01000000⟩, ⟨CARD, capsReq⟩]
      ⟨CARD, capsReq⟩).2.2.2 (by decide) (by decide)

/-- Claim C6 counterexample: when the enumeration exhausts with no match the
matcher fails, but the message the code produces is "cannot find camera"
(main.rs line 39), not "camera not found" as the claim states. -/
theorem camera_not_found_message_cx :
    getMatchedCamera [] = .error "cannot find camera"
    ∧ "cannot find camera" ≠ "camera not found" :=
  ⟨rfl, by decide⟩

/-- Claim C6 (amended): if the enumeration sequence ends without any device
matching the identity and capability policy, startup fails fatally with the
error "cannot find camera". -/
theorem camera_not_found_amended (l : List Caps)
    (h : ∀ c ∈ l, deviceMatches c = false) :
    getMatchedCamera (l.map Except.ok) = .error "cannot find camera" := by
  have hscan : scanDevices (l.map Except.ok) = .ok none := by
    induction l with
    | nil => rfl
    | cons a t ih =>
        have ha : deviceMatches a = false := h a (List.mem_cons_self a t)
        have ih' := ih (fun c hc => h c (List.mem_cons_of_mem a hc))
        simpa [scanDevices, ha] using ih'
  simp [getMatchedCamera, hscan]

/-- Witness for C6: two candidates, one with the right identity but missing
capability flags, one with the right flags but the wrong identity — matcher
fails with "cannot find camera". -/
theorem camera_not_found_amended_witness :
    getMatchedCamera ([⟨CARD, capVideoCapture⟩, ⟨"webcam", capsReq⟩].map Except.ok)
      = .error "cannot find camera" :=
  camera_not_found_amended [⟨CARD, capVideoCapture⟩, ⟨"webcam", capsReq⟩] (by decide)

/-- Claim C10: if opening any enumerated candidate, or reading its
capabilities, fails, the whole matcher aborts with that error — the faulty
candidate is not skipped, even when a later enumerated device would match
the identity and capability policy. -/
theorem opening_error_aborts_matcher (pre post : List Caps) (e : String) (d : Caps)
    (hpre : ∀ c ∈ pre, deviceMatches c = false)
    (hd : d ∈ post) (hdm : deviceMatches d = true) :
    getMatchedCamera (pre.map Except.ok ++ .error e :: post.map Except.ok)
      = .error e := by
  have hscan : ∀ l : List (Except String Caps),
      scanDevices (pre.map Except.ok ++ .error e :: l) = .error e := by
    intro l
    induction pre with
    | nil => rfl
    | cons a t ih =>
        have ha : deviceMatches a = false := hpre a (List.mem_cons_self a t)
        have ih' := ih (fun c hc => hpre c (List.mem_cons_of_mem a hc))
        simpa [scanDevices, ha] using ih'
  simp [getMatchedCamera, hscan]

/-- Witness for C10: the second candidate fails to open with "EACCES"; the
third would match exactly, yet the matcher aborts with "EACCES". -/
theorem opening_error_aborts_matcher_witness :
    getMatchedCamera ([Caps.mk "other cam" capsReq].map Except.ok
        ++ .error "EACCES" :: [Caps.mk CARD capsReq].map Except.ok)
      = .error "EACCES" :=
  opening_error_aborts_matcher [⟨"other cam", capsReq⟩] [⟨CARD, capsReq⟩]
    "EACCES" ⟨CARD, capsReq⟩ (by decide) (by decide) (by decide)

/-- Claim C4 counterexample: when no format matches, the pixel-format search
fails, but the message the code produces is "MJPG format not supported"
(main.rs line 55), not "format not supported" as the claim states. -/
theorem format_message_cx :
    selectFormat [.ok ⟨.other 0⟩] = .error "MJPG format not supported"
    ∧ "MJPG format not supported" ≠ "format not supported" :=
  ⟨rfl, by decide⟩

/-- Claim C4 (amended): the pixel-format search selects the first format
whose encoding equals the motion-JPEG target, regardless of the position or
content of non-matching formats around it (error entries and non-MJPEG
formats alike yield no hit), and fails fatally with the error
"MJPG format not supported" if no format matches. -/
theorem format_search_first_mjpeg (pre rest : List (Except String FmtDesc))
    (f : FmtDesc) (hf : f.pixelFormat = .mjpeg)
    (hpre : ∀ g ∈ pre.filterMap okOnly, g.pixelFormat ≠ FourCc.mjpeg) :
    selectFormat (pre ++ .ok f :: rest) = .ok f
    ∧ (∀ l : List (Except String FmtDesc),
        (∀ g ∈ l.filterMap okOnly, g.pixelFormat ≠ FourCc.mjpeg) →
        selectFormat l = .error "MJPG format not supported") := by
  have hnone : ∀ l : List (Except String FmtDesc),
      (∀ g ∈ l.filterMap okOnly, g.pixelFormat ≠ FourCc.mjpeg) →
      ∀ r ∈ l, mjpegHit r = none := by
    intro l hl r hr
    match r with
    | .error _ => rfl
    | .ok g =>
        have hg : g ∈ l.filterMap okOnly :=
          List.mem_filterMap.mpr ⟨.ok g, hr, rfl⟩
        simp [mjpegHit, hl g hg]
  constructor
  · have h1 : (pre ++ .ok f :: rest).findSome? mjpegHit
        = (Except.ok f :: rest).findSome? mjpegHit :=
      findSome?_append_none mjpegHit pre _ (hnone pre hpre)
    have h2 : mjpegHit (.ok f) = some f := by simp [mjpegHit, hf]
    simp [selectFormat, h1, List.findSome?_cons, h2]
  · intro l hl
    have := findSome?_eq_none_of_all mjpegHit l (hnone l hl)
    simp [selectFormat, this]

/-- Witness for C4: listing [YUYV-like format, error entry, MJPEG, MJPEG]
selects the first MJPEG entry; a listing with no MJPEG fails with
"MJPG format not supported". -/
theorem format_search_first_mjpeg_witness :
    selectFormat [.ok ⟨.other 7⟩, .error "ioctl failed", .ok ⟨.mjpeg⟩, .ok ⟨.mjpeg⟩]
      = .ok ⟨.mjpeg⟩
    ∧ selectFormat [.ok ⟨.other 7⟩, .error "ioctl failed"]
      = .error "MJPG format not supported" := by
  have h := format_search_first_mjpeg [.ok ⟨.other 7⟩, .error "ioctl failed"]
    [.ok ⟨.mjpeg⟩] ⟨.mjpeg⟩ rfl (by decide)
  exact ⟨h.1, h.2 [.ok ⟨.other 7⟩, .error "ioctl failed"] (by decide)⟩

/-- Claim C3 counterexample: when no discrete size entry contains (320, 240)
the size search fails, but the message the code produces is
"320x240 resolution not supported" (main.rs line 68), not
"resolution not supported" as the claim states. -/
theorem resolution_message_cx :
    selectSize ⟨.mjpeg⟩ [.ok ⟨[(640, 480)]⟩]
      = .error "320x240 resolution not supported"
    ∧ "320x240 resolution not supported" ≠ "resolution not supported" :=
  ⟨rfl, by decide⟩

/-- Claim C3 (amended): the size search selects the first `Ok` size entry
whose discrete sizes contain exactly (320, 240) — error entries are skipped,
and an entry that is not a discrete-size list contributes no pairs so it is
skipped too — and fails fatally with "320x240 resolution not supported" when
no entry contains the target pair; in particular an entry with discrete
sizes [(640,480), (320,240)] succeeds. -/
theorem size_search_target (fmt : FmtDesc) (pre rest : List (Except String FrmSize))
    (s : FrmSize) (hs : (320, 240) ∈ s.discreteSizes)
    (hpre : ∀ t ∈ pre.filterMap okOnly, sizeHasTarget t = false) :
    selectSize fmt (pre ++ .ok s :: rest) = .ok (fmt, s)
    ∧ (∀ l : List (Except String FrmSize),
        (∀ t ∈ l.filterMap okOnly, sizeHasTarget t = false) →
        selectSize fmt l = .error "320x240 resolution not supported")
    ∧ selectSize fmt [.ok ⟨[(640, 480), (320, 240)]⟩]
      = .ok (fmt, ⟨[(640, 480), (320, 240)]⟩) := by
  refine ⟨?_, ?_, rfl⟩
  · have hst : sizeHasTarget s = true := by
      simp only [sizeHasTarget, List.any_eq_true]
      exact ⟨(320, 240), hs, by decide⟩
    have h1 : (pre ++ .ok s :: rest).filterMap okOnly
        = pre.filterMap okOnly ++ s :: rest.filterMap okOnly := by
      simp [List.filterMap_append, okOnly]
    have h2 : (pre.filterMap okOnly ++ s :: rest.filterMap okOnly).find? sizeHasTarget
        = (s :: rest.filterMap okOnly).find? sizeHasTarget :=
      find?_append_false sizeHasTarget _ _ hpre
    simp [selectSize, h1, h2, List.find?_cons, hst]
  · intro l hl
    have := find?_eq_none_of_all sizeHasTarget (l.filterMap okOnly) hl
    simp [selectSize, this]

/-- Witness for C3: a listing [error entry, (640,480)-only entry,
((640,480),(320,240)) entry] selects the third entry; a listing offering
only (640,480) and (160,120) fails with "320x240 resolution not
supported". -/
theorem size_search_target_witness :
    selectSize ⟨.mjpeg⟩ [.error "ioctl failed", .ok ⟨[(640, 480)]⟩,
        .ok ⟨[(640, 480), (320, 240)]⟩]
      = .ok (⟨.mjpeg⟩, ⟨[(640, 480), (320, 240)]⟩)
    ∧ selectSize ⟨.mjpeg⟩ [.ok ⟨[(640, 480)]⟩, .ok ⟨[(160, 120)]⟩]
      = .error "320x240 resolution not supported" := by
  have h := size_search_target ⟨.mjpeg⟩ [.error "ioctl failed", .ok ⟨[(640, 480)]⟩]
    [] ⟨[(640, 480), (320, 240)]⟩ (by decide) (by decide)
  exact ⟨h.1, h.2.1 [.ok ⟨[(640, 480)]⟩, .ok ⟨[(160, 120)]⟩] (by decide)⟩

/-- Claim C2 counterexample: the code compares componentwise
(`numerator() == 513 && denominator() == 61612`), not by rational equality.
The discrete entry 1026/123224 is equal as a rational to 513/61612, yet the
search rejects it and fails; and the failure message the code produces is
"interval 513/61612 not supported" (main.rs line 85), not
"interval not supported" as the claim states. -/
theorem interval_rational_equality_cx :
    selectInterval ⟨.mjpeg⟩ ⟨[(320, 240)]⟩ [.ok (.discrete 1026 123224)]
      = .error "interval 513/61612 not supported"
    ∧ (1026 : ℚ) / 123224 = 513 / 61612
    ∧ "interval 513/61612 not supported" ≠ "interval not supported" :=
  ⟨rfl, by norm_num, by decide⟩

/-- Claim C2 (amended): the interval search silently skips error entries and
entries that are not discrete fractions, selects the first discrete entry
whose numerator is exactly 513 and denominator exactly 61612 (componentwise
equality, not rational equality), and fails fatally with
"interval 513/61612 not supported" if no such entry exists. -/
theorem interval_search_componentwise (fmt : FmtDesc) (sz : FrmSize)
    (pre rest : List (Except String FrmIvalEntry))
    (hpre : ∀ i ∈ pre.filterMap okOnly, intervalHit i = none) :
    selectInterval fmt sz (pre ++ .ok (.discrete 513 61612) :: rest)
      = .ok (fmt, sz, .discrete 513 61612)
    ∧ (∀ l : List (Except String FrmIvalEntry),
        (∀ i ∈ l.filterMap okOnly, intervalHit i = none) →
        selectInterval fmt sz l = .error "interval 513/61612 not supported")
    ∧ (∀ n d : Nat, (∃ j, intervalHit (.discrete n d) = some j) ↔ n = 513 ∧ d = 61612)
    ∧ (∀ t : Nat, intervalHit (.nonDiscrete t) = none) := by
  refine ⟨?_, ?_, ?_, fun t => rfl⟩
  · have h1 : (pre ++ .ok (.discrete 513 61612) :: rest).filterMap okOnly
        = pre.filterMap okOnly
          ++ FrmIvalEntry.discrete 513 61612 :: rest.filterMap okOnly := by
      simp [List.filterMap_append, okOnly]
    have h2 := findSome?_append_none intervalHit (pre.filterMap okOnly)
      (FrmIvalEntry.discrete 513 61612 :: rest.filterMap okOnly) hpre
    simp [selectInterval, h1, h2, List.findSome?_cons, intervalHit, tryDiscrete]
  · intro l hl
    have := findSome?_eq_none_of_all intervalHit (l.filterMap okOnly) hl
    simp [selectInterval, this]
  · intro n d
    constructor
    · rintro ⟨j, hj⟩
      by_contra hnd
      have : intervalHit (.discrete n d) = none := by
        have hb : (n == 513 && d == 61612) = false := by
          rw [Bool.eq_false_iff]
          simp only [ne_eq, Bool.and_eq_true, beq_iff_eq]
          exact hnd
        simp only [intervalHit, tryDiscrete, Option.some_bind, hb,
          Bool.false_eq_true, if_false]
      rw [this] at hj
      cases hj
    · rintro ⟨hn, hd⟩
      subst hn; subst hd
      exact ⟨.discrete 513 61612, rfl⟩

/-- Witness for C2: a listing [error entry, stepwise entry, discrete 1/30,
discrete 513/61612] skips the first three and selects the exact discrete
match; a listing with only a stepwise entry and discrete 1/30 fails with
"interval 513/61612 not supported". -/
theorem interval_search_componentwise_witness :
    selectInterval ⟨.mjpeg⟩ ⟨[(320, 240)]⟩
      [.error "ioctl failed", .ok (.nonDiscrete 2), .ok (.discrete 1 30),
        .ok (.discrete 513 61612)]
      = .ok (⟨.mjpeg⟩, ⟨[(320, 240)]⟩, .discrete 513 61612)
    ∧ selectInterval ⟨.mjpeg⟩ ⟨[(320, 240)]⟩
      [.ok (.nonDiscrete 2), .ok (.discrete 1 30)]
      = .error "interval 513/61612 not supported" := by
  have h := interval_search_componentwise ⟨.mjpeg⟩ ⟨[(320, 240)]⟩
    [.error "ioctl failed", .ok (.nonDiscrete 2), .ok (.discrete 1 30)] []
    (by decide)
  exact ⟨h.1, h.2.1 [.ok (.nonDiscrete 2), .ok (.discrete 1 30)] (by decide)⟩

/-- Claim C5 counterexample: when the device rejects the push
(`device.set_format(&mut capture_format)?`, main.rs line 97) the device's
own error propagates unchanged; the commit step does not fail with
"cannot set pixel format" in that case, contrary to the claim. -/
theorem commit_push_error_cx :
    commitFormat (.ok (.pix ⟨.other 0, 640, 480⟩))
      (fun _ => .error "EBUSY") .mjpeg = .error "EBUSY"
    ∧ "EBUSY" ≠ "cannot set pixel format" :=
  ⟨rfl, by decide⟩

/-- Claim C5 (amended): the commit step fails with "cannot set pixel format"
exactly when the current format descriptor cannot be reinterpreted as a
mutable pixel-format structure; when the device rejects the push of the
mutated descriptor, the push's own error propagates instead; it succeeds
only after setting pixel format = the selected format, width 320 and height
240 on the descriptor and pushing that descriptor successfully to the
device. -/
theorem commit_format_cases (push : FormatDesc → Except String Unit) (sel : FourCc) :
    (∀ t : Nat, commitFormat (.ok (.otherDesc t)) push sel
      = .error "cannot set pixel format")
    ∧ (∀ (p : PixFormat) (e : String),
        push (.pix ⟨sel, 320, 240⟩) = .error e →
        commitFormat (.ok (.pix p)) push sel = .error e)
    ∧ (∀ (p : PixFormat) (res : FormatDesc),
        commitFormat (.ok (.pix p)) push sel = .ok res →
        res = .pix ⟨sel, 320, 240⟩ ∧ push res = .ok ())
    ∧ (∀ e : String, commitFormat (.error e) push sel = .error e) := by
  refine ⟨fun t => rfl, ?_, ?_, fun e => rfl⟩
  · intro p e hp
    simp [commitFormat, hp]
  · intro p res h
    simp only [commitFormat] at h
    cases hpush : push (.pix ⟨sel, 320, 240⟩) with
    | ok u =>
        rw [hpush] at h
        cases h
        exact ⟨rfl, by cases u; exact hpush⟩
    | error e =>
        rw [hpush] at h
        cases h

/-- Witness for C5: with a device that accepts exactly the MJPEG 320x240
descriptor, the commit of a 640x480 YUYV-like current descriptor succeeds
and the pushed descriptor is MJPEG 320x240; with a rejecting device the
rejection "EINVAL" propagates; a non-reinterpretable descriptor fails with
"cannot set pixel format". -/
theorem commit_format_cases_witness :
    commitFormat (.ok (.otherDesc 3))
      (fun _ => .error "EINVAL") .mjpeg = .error "cannot set pixel format"
    ∧ commitFormat (.ok (.pix ⟨.other 5, 640, 480⟩))
      (fun _ => .error "EINVAL") .mjpeg = .error "EINVAL"
    ∧ (FormatDesc.pix ⟨.mjpeg, 320, 240⟩ = .pix ⟨.mjpeg, 320, 240⟩
        ∧ (fun _ : FormatDesc => Except.ok (ε := String) ())
            (.pix ⟨.mjpeg, 320, 240⟩) = .ok ()) := by
  refine ⟨?_, ?_, ?_⟩
  · exact (commit_format_cases (fun _ => .error "EINVAL") .mjpeg).1 3
  · exact (commit_format_cases (fun _ => .error "EINVAL") .mjpeg).2.1
      ⟨.other 5, 640, 480⟩ "EINVAL" rfl
  · exact (commit_format_cases (fun _ => .ok ()) .mjpeg).2.2.1
      ⟨.other 5, 640, 480⟩ (.pix ⟨.mjpeg, 320, 240⟩) rfl

theorem runTicks_cons_of_ne (f : Except String FramePayload)
    (rest : List (Except String FramePayload)) (pool : Nat)
    (o : TickOutcome) (p : Nat) (h : tickOnce f pool = (o, p))
    (hnp : o ≠ .panicked) :
    runTicks (f :: rest) pool = (o :: (runTicks rest p).1, (runTicks rest p).2) := by
  cases o with
  | panicked => exact absurd rfl hnp
  | rendered => simp [runTicks, h]
  | logged m => simp [runTicks, h]

/-- Claim C7 (code bug): a buffer whose payload is malformed is handled
recoverably (the error is logged and the tick completes), and a well-formed
320x240 frame renders; but a buffer that decodes successfully to dimensions
other than the negotiated 320x240 — here 640x480 — fails the size assertion
`assert_eq!(size[0] * size[1] * 4, rgba.len())` inside
`ColorImage::from_rgba_unmultiplied([320, 240], &rgba8)` (main.rs line 170):
the tick panics instead of reporting a recoverable decode error. -/
theorem dimension_mismatch_panics :
    (tickOnce (.ok (.image 640 480)) 4).1 = .panicked
    ∧ (tickOnce (.ok (.badStream "invalid JPEG payload")) 4).1
      = .logged "cannot get decoder: invalid JPEG payload"
    ∧ (tickOnce (.ok (.image 320 240)) 4).1 = .rendered :=
  ⟨rfl, rfl, rfl⟩

/-- Claim C8: for every tick, an acquisition failure (`stream.next()` error)
or a decode failure (`JpegDecoder::new` or `DynamicImage::from_decoder`
error) is converted to one logged diagnostic line and swallowed (`.ok()`):
`update` returns normally, and the failed tick does not prevent the next
tick from acquiring and rendering a good frame. -/
theorem pipeline_error_logged_not_propagated (e : String) (pool : Nat)
    (rest : List (Except String FramePayload))
    (next : Except String FramePayload)
    (hfail : next = .error e ∨ next = .ok (.badHeader e) ∨ next = .ok (.badStream e)) :
    (∃ m, (tickOnce next pool).1 = .logged m)
    ∧ (∃ m os p, runTicks (next :: .ok (.image 320 240) :: rest) pool
        = (.logged m :: .rendered :: os, p)) := by
  have hsecond : ∀ q : Nat, tickOnce (.ok (.image 320 240)) q = (.rendered, q - 1 + 1) := by
    intro q
    simp [tickOnce]
  rcases hfail with h | h | h <;> subst h <;>
    refine ⟨⟨_, rfl⟩, ?_⟩ <;>
    rw [runTicks_cons_of_ne _ _ _ _ _ rfl (by simp),
      runTicks_cons_of_ne _ _ _ _ _ (hsecond _) (by simp)] <;>
    exact ⟨_, _, _, rfl⟩

/-- Witness for C8: an acquisition failure ("EIO") on one tick is logged, and
the following tick renders a good 320x240 frame. -/
theorem pipeline_error_logged_not_propagated_witness :
    (∃ m, (tickOnce (.error "EIO") 4).1 = .logged m)
    ∧ (∃ m os p, runTicks [.error "EIO", .ok (.image 320 240)] 4
        = (.logged m :: .rendered :: os, p)) :=
  pipeline_error_logged_not_propagated "EIO" 4 [] (.error "EIO") (Or.inl rfl)

/-- Claim C9: the hardware buffer acquired by one tick is returned to the
driver's free pool on every exit path of the acquire-lock-decode cycle —
decoder-construction failure, decode failure, dimension-assert failure and
success alike — leaving the pool's available count unchanged after the
tick. -/
theorem buffer_released_every_path (next : Except String FramePayload)
    (pool : Nat) (hpool : 1 ≤ pool) :
    (tickOnce next pool).2 = pool := by
  have hp : pool - 1 + 1 = pool := Nat.sub_add_cancel hpool
  cases next with
  | error e => rfl
  | ok payload =>
      cases payload with
      | badHeader e => exact hp
      | badStream e => exact hp
      | image w h =>
          simp only [tickOnce]
          split <;> exact hp

/-- Witness for C9: with the stream's 4 buffers available, the pool count is
4 again after a failed-decode tick and after a panicking
dimension-mismatch tick. -/
theorem buffer_released_every_path_witness :
    (tickOnce (.ok (.badStream "invalid JPEG payload")) 4).2 = 4
    ∧ (tickOnce (.ok (.image 640 480)) 4).2 = 4 :=
  ⟨buffer_released_every_path (.ok (.badStream "invalid JPEG payload")) 4 (by decide),
   buffer_released_every_path (.ok (.image 640 480)) 4 (by decide)⟩

end CameraCapture
